import Mathlib

set_option linter.unusedVariables false

/-!
Verification development for the Agent 007 frontend chat client.

This file gives a shallow embedding of the local session-storage subsystem
(the ChatStorageService in the chatStorage service module), the outbound
request construction (the apiService sendMessage function and its
generateRequestId helper), and the send flow of the ChatInterface component
(handleSend), and proves properties of them.

Modelling conventions:
- localStorage is modelled as an explicit `Store` value threaded through every
  operation; each operation returns its result together with the store state
  it leaves persisted.
- Timestamps (Date.now(), new Date()) are modelled as a natural number taken
  from an `Env` record supplied to every call that reads the clock; the random
  suffixes produced by Math.random().toString(36) and the locale date string
  are likewise fields of `Env`.
- JavaScript string-union types become plain `String`; optional fields become
  `Option`; exceptions caught by try/catch become `Option`/branching.
-/

/-- A stored chat message (interface ChatMessage of the chatStorage module).
The timestamp is in milliseconds as a natural number. -/
structure ChatMessage where
  id : String
  content : String
  role : String
  timestamp : Nat
  requestId : Option String
  mode : Option String
  deriving DecidableEq, Repr

/-- A chat session (interface ChatSession of the chatStorage module). -/
structure ChatSession where
  id : String
  title : String
  messages : List ChatMessage
  createdAt : Nat
  updatedAt : Nat
  deriving DecidableEq, Repr

/-- The persisted localStorage state relevant to the chat subsystem: the
parsed session listing stored under the CHAT_SESSIONS key and the current
session pointer stored under the CURRENT_SESSION key (absent = `none`). -/
structure Store where
  sessions : List ChatSession
  currentSessionId : Option String
  deriving DecidableEq, Repr

/-- Nondeterministic inputs of one call: the clock value Date.now(), the
random base-36 suffixes drawn by Math.random().toString(36) for session ids,
message ids and request ids, and the locale date string used in default
session titles. -/
structure Env where
  now : Nat
  sessRand : String
  msgRand : String
  reqRand : String
  dateStr : String
  deriving DecidableEq, Repr

/-- Session id format of createNewSession: session_ + Date.now() + _ + random
base-36 suffix. -/
def sessionIdOf (env : Env) : String :=
  "session_" ++ toString env.now ++ "_" ++ env.sessRand

/-- Message id format of addMessage: msg_ + Date.now() + _ + random base-36
suffix. -/
def messageIdOf (env : Env) : String :=
  "msg_" ++ toString env.now ++ "_" ++ env.msgRand

/-- Default session title of createNewSession: Chat + current locale date. -/
def defaultTitle (env : Env) : String :=
  "Chat " ++ env.dateStr

/-- Store with no persisted sessions and no current pointer. -/
def emptyStore : Store :=
  { sessions := [], currentSessionId := none }

/-- ChatStorageService.getCurrentSessionId: read of the CURRENT_SESSION key. -/
def getCurrentSessionId (st : Store) : Option String :=
  st.currentSessionId

/-- ChatStorageService.setCurrentSessionId: unconditional write of the
CURRENT_SESSION key. -/
def setCurrentSessionId (sessionId : String) (st : Store) : Store :=
  { sessions := st.sessions, currentSessionId := some sessionId }

/-- ChatStorageService.getSession: find the session with the given id in the
listing, `none` when absent. -/
def getSession (st : Store) (sessionId : String) : Option ChatSession :=
  st.sessions.find? (fun s => s.id == sessionId)

/-- The fresh session value built by ChatStorageService.createNewSession. The
JavaScript default `title || ...` treats the empty string as absent, hence the
emptiness test. -/
def mkNewSession (env : Env) (title : Option String) : ChatSession :=
  { id := sessionIdOf env
    title :=
      match title with
      | some t => if t = "" then defaultTitle env else t
      | none => defaultTitle env
    messages := []
    createdAt := env.now
    updatedAt := env.now }

/-- ChatStorageService.createNewSession: build a fresh session, unshift it at
the front of the listing, save, repoint the current pointer to it, return it. -/
def createNewSession (env : Env) (title : Option String) (st : Store) :
    ChatSession × Store :=
  let ns := mkNewSession env title
  (ns, { sessions := ns :: st.sessions, currentSessionId := some ns.id })

/-- Resolution of the current pointer as performed at the top of
ChatStorageService.getCurrentSession: read the pointer; a missing or empty
("" is falsy) pointer does not resolve; otherwise look the id up with
getSession. -/
def lookupCurrent (st : Store) : Option ChatSession :=
  match st.currentSessionId with
  | some cid => if cid = "" then none else getSession st cid
  | none => none

/-- ChatStorageService.getCurrentSession: return the session the current
pointer resolves to, or create (and persist) a brand-new session when the
pointer is unset, empty or dangling. -/
def getCurrentSession (env : Env) (st : Store) : ChatSession × Store :=
  match lookupCurrent st with
  | some sess => (sess, st)
  | none => createNewSession env none st

/-- The argument of ChatStorageService.addMessage: a ChatMessage without id
and timestamp. -/
structure MsgPartial where
  content : String
  role : String
  requestId : Option String
  mode : Option String
  deriving DecidableEq, Repr

/-- The new message value built inside ChatStorageService.addMessage. -/
def mkMessage (env : Env) (p : MsgPartial) : ChatMessage :=
  { id := messageIdOf env
    content := p.content
    role := p.role
    timestamp := env.now
    requestId := p.requestId
    mode := p.mode }

/-- Mutation of the element found by Array.prototype.findIndex followed by an
in-place update: replace the first list element whose id equals `sid` by its
image under `f`, leaving everything else unchanged. -/
def updateFirst (sid : String) (f : ChatSession → ChatSession) :
    List ChatSession → List ChatSession
  | [] => []
  | s :: rest => if s.id == sid then f s :: rest else s :: updateFirst sid f rest

/-- The session update performed when addMessage pushes a message: append the
message and bump updatedAt. -/
def appendMessageTo (m : ChatMessage) (t : Nat) (s : ChatSession) : ChatSession :=
  { s with messages := s.messages ++ [m], updatedAt := t }

/-- ChatStorageService.addMessage. The source first reads the listing, then
resolves the current session (which may itself create and persist a fresh
session), then pushes the new message into the copy of the listing read at the
start: into the entry found by findIndex when present, otherwise into the
in-memory current-session object which is unshifted at the front. The final
saveSessions overwrites any intermediate save done by createNewSession, so the
persisted listing is the one derived from the initially read copy. -/
def addMessage (env : Env) (p : MsgPartial) (st : Store) : ChatMessage × Store :=
  let sessions := st.sessions
  let cur := getCurrentSession env st
  let newMessage := mkMessage env p
  let sessionsOut :=
    if (sessions.find? (fun s => s.id == cur.1.id)).isSome then
      updateFirst cur.1.id (appendMessageTo newMessage env.now) sessions
    else
      appendMessageTo newMessage env.now cur.1 :: sessions
  (newMessage, { sessions := sessionsOut, currentSessionId := cur.2.currentSessionId })

/-- ChatStorageService.updateSessionTitle: when a session with the id exists,
overwrite its title and bump updatedAt; otherwise do nothing. -/
def updateSessionTitle (env : Env) (sessionId title : String) (st : Store) : Store :=
  if (st.sessions.find? (fun s => s.id == sessionId)).isSome then
    { sessions :=
        updateFirst sessionId
          (fun s => { s with title := title, updatedAt := env.now }) st.sessions
      currentSessionId := st.currentSessionId }
  else st

/-- Embedding of JavaScript String.prototype.startsWith: the character
sequence of the second string is a prefix of that of the first. -/
def jsStartsWith (s p : String) : Bool :=
  p.data.isPrefixOf s.data

/-- ChatStorageService.needsTitleGeneration: the current session (resolved
through getCurrentSession, hence possibly created on the spot) has at least
one message and its title starts with the Chat-space default or equals the
generic New Chat label. -/
def needsTitleGeneration (env : Env) (st : Store) : Bool × Store :=
  let cur := getCurrentSession env st
  let hasMessages : Bool := decide (0 < cur.1.messages.length)
  let hasDefaultTitle : Bool :=
    jsStartsWith cur.1.title "Chat " || cur.1.title == "New Chat"
  (hasMessages && hasDefaultTitle, cur.2)

/-- One entry of the conversation history sent to the backend: a message
stripped to role and content. -/
structure HistEntry where
  role : String
  content : String
  deriving DecidableEq, Repr

/-- Array.prototype.slice with the negated limit as used by
getConversationHistory: slice(-limit) takes the last `limit` elements, except
that slice(-0) equals slice(0) and returns the whole array. -/
def sliceLast (limit : Nat) (xs : List ChatMessage) : List ChatMessage :=
  if limit = 0 then xs else xs.drop (xs.length - limit)

/-- ChatStorageService.getConversationHistory: the last `limit` messages of
the current session (resolved through getCurrentSession), stripped to role and
content. The TypeScript parameter defaults to 10 when omitted. -/
def getConversationHistory (env : Env) (limit : Nat) (st : Store) :
    List HistEntry × Store :=
  let cur := getCurrentSession env st
  ((sliceLast limit cur.1.messages).map
      (fun m => { role := m.role, content := m.content }), cur.2)

/-- ChatStorageService.deleteSession: filter the session out of the listing
and save; when the deleted id was the current pointer, create a fresh session
(which repoints the pointer). -/
def deleteSession (env : Env) (sessionId : String) (st : Store) : Store :=
  let filteredSessions := st.sessions.filter (fun s => !(s.id == sessionId))
  let st1 : Store := { sessions := filteredSessions, currentSessionId := st.currentSessionId }
  if st.currentSessionId == some sessionId then
    (createNewSession env none st1).2
  else st1

/-- ChatStorageService.switchToSession: repoint the current pointer and report
true when the id exists, otherwise leave everything untouched and report
false. -/
def switchToSession (sessionId : String) (st : Store) : Bool × Store :=
  match getSession st sessionId with
  | some _ => (true, setCurrentSessionId sessionId st)
  | none => (false, st)

/-! Helper lemmas about the store operations. -/

theorem sessionIdOf_ne_empty (env : Env) : ¬ sessionIdOf env = "" := by
  intro h
  have hlen := congrArg String.length h
  simp [sessionIdOf, String.length_append] at hlen
  exact (by decide : ¬ "session_".length = 0) hlen.1.1.1

theorem findUpdateFirst (sid cid : String) (f : ChatSession → ChatSession)
    (hf : ∀ s, (f s).id = s.id) (xs : List ChatSession) :
    (updateFirst sid f xs).find? (fun s => s.id == cid)
      = (xs.find? (fun s => s.id == cid)).map
          (fun a => if a.id == sid then f a else a) := by
  induction xs with
  | nil => rfl
  | cons h t ih =>
    cases hbs : h.id == sid with
    | true =>
      have hs : h.id = sid := by simpa using hbs
      cases hbc : h.id == cid with
      | true =>
        have hc : h.id = cid := by simpa using hbc
        have hfc : ((f h).id == cid) = true := by simp [hf, hc]
        simp only [updateFirst, hbs, if_true, List.find?, hfc, hbc]
        simp only [Option.map]
        rw [if_pos hbs]
      | false =>
        have hc : ¬ h.id = cid := by simpa using hbc
        have hfc : ((f h).id == cid) = false := by simp [hf, hc]
        have hcs : ¬ cid = sid := fun hcc => hc (by rw [hs, hcc])
        simp only [updateFirst, hbs, if_true, List.find?, hfc, hbc]
        cases ht : t.find? (fun s => s.id == cid) with
        | none => rfl
        | some a =>
          have ha : a.id = cid := by simpa using List.find?_some ht
          simp [ha, hcs]
    | false =>
      cases hbc : h.id == cid with
      | true =>
        simp only [updateFirst, hbs, Bool.false_eq_true, if_false, List.find?, hbc]
        simp only [Option.map]
        rw [if_neg (by simp [hbs])]
      | false =>
        simp only [updateFirst, hbs, Bool.false_eq_true, if_false, List.find?, hbc]
        exact ih

theorem appendMessageTo_id (m : ChatMessage) (t : Nat) (s : ChatSession) :
    (appendMessageTo m t s).id = s.id := rfl

theorem lookupCurrent_some (st : Store) (sess : ChatSession)
    (h : lookupCurrent st = some sess) :
    st.currentSessionId = some sess.id ∧ ¬ sess.id = "" ∧
      st.sessions.find? (fun s => s.id == sess.id) = some sess := by
  cases hcid : st.currentSessionId with
  | none => simp [lookupCurrent, hcid] at h
  | some cid =>
    simp only [lookupCurrent, hcid] at h
    by_cases he : cid = ""
    · simp [he] at h
    · rw [if_neg he] at h
      have hid : sess.id = cid := by
        have := List.find?_some h
        simpa using this
      subst hid
      exact ⟨rfl, he, h⟩

theorem getCurrentSession_resolved (env : Env) (st : Store) (sess : ChatSession)
    (h : lookupCurrent st = some sess) :
    getCurrentSession env st = (sess, st) := by
  unfold getCurrentSession
  rw [h]

theorem addMessage_resolved (env : Env) (p : MsgPartial) (st : Store)
    (sess : ChatSession) (h : lookupCurrent st = some sess) :
    (addMessage env p st).1 = mkMessage env p ∧
    (addMessage env p st).2.currentSessionId = st.currentSessionId ∧
    (addMessage env p st).2.sessions
      = updateFirst sess.id (appendMessageTo (mkMessage env p) env.now) st.sessions ∧
    lookupCurrent (addMessage env p st).2
      = some (appendMessageTo (mkMessage env p) env.now sess) := by
  obtain ⟨hptr, hne, hfind⟩ := lookupCurrent_some st sess h
  have hcur := getCurrentSession_resolved env st sess h
  have hbody : addMessage env p st
      = (mkMessage env p,
         { sessions := updateFirst sess.id (appendMessageTo (mkMessage env p) env.now) st.sessions
           currentSessionId := st.currentSessionId }) := by
    unfold addMessage
    rw [hcur]
    simp [hfind]
  refine ⟨by rw [hbody], by rw [hbody], by rw [hbody], ?_⟩
  rw [hbody]
  simp only [lookupCurrent, hptr]
  rw [if_neg hne]
  show (updateFirst sess.id (appendMessageTo (mkMessage env p) env.now) st.sessions).find?
      (fun s => s.id == sess.id) = _
  rw [findUpdateFirst sess.id sess.id _ (fun s => appendMessageTo_id _ _ s) st.sessions, hfind]
  simp

theorem lookupCurrent_addMessage_isSome (env : Env) (p : MsgPartial) (st : Store) :
    (lookupCurrent (addMessage env p st).2).isSome = true := by
  cases hl : lookupCurrent st with
  | some sess =>
    rw [(addMessage_resolved env p st sess hl).2.2.2]
    rfl
  | none =>
    have hcur : getCurrentSession env st = createNewSession env none st := by
      unfold getCurrentSession
      rw [hl]
    have hne2 : ¬ (mkNewSession env none).id = "" := sessionIdOf_ne_empty env
    cases hfind : st.sessions.find? (fun s => s.id == (mkNewSession env none).id) with
    | some a =>
      have hbody : addMessage env p st
          = (mkMessage env p,
             { sessions := updateFirst (mkNewSession env none).id
                 (appendMessageTo (mkMessage env p) env.now) st.sessions
               currentSessionId := some (mkNewSession env none).id }) := by
        unfold addMessage
        rw [hcur]
        simp [createNewSession, hfind]
      rw [hbody]
      simp only [lookupCurrent]
      rw [if_neg hne2]
      show ((updateFirst (mkNewSession env none).id (appendMessageTo (mkMessage env p) env.now)
          st.sessions).find? (fun s => s.id == (mkNewSession env none).id)).isSome = true
      rw [findUpdateFirst _ _ _ (fun s => appendMessageTo_id _ _ s) st.sessions, hfind]
      rfl
    | none =>
      have hbody : addMessage env p st
          = (mkMessage env p,
             { sessions := appendMessageTo (mkMessage env p) env.now (mkNewSession env none)
                 :: st.sessions
               currentSessionId := some (mkNewSession env none).id }) := by
        unfold addMessage
        rw [hcur]
        simp [createNewSession, hfind]
      rw [hbody]
      simp only [lookupCurrent]
      rw [if_neg hne2]
      show ((appendMessageTo (mkMessage env p) env.now (mkNewSession env none) :: st.sessions).find?
          (fun s => s.id == (mkNewSession env none).id)).isSome = true
      rw [List.find?_cons_of_pos]
      · rfl
      · simp [appendMessageTo_id]

theorem getCurrentSession_of_isSome (env : Env) (st : Store)
    (h : (lookupCurrent st).isSome = true) :
    (getCurrentSession env st).2 = st := by
  cases hl : lookupCurrent st with
  | some sess => rw [getCurrentSession_resolved env st sess hl]
  | none => rw [hl] at h; exact absurd h (by simp)

/-! Concrete sample values used by witnesses and counterexamples. -/

/-- Sample call environment. -/
def envC : Env :=
  { now := 5, sessRand := "abc", msgRand := "m0", reqRand := "q0", dateStr := "1/1/2026" }

/-- The session created by createNewSession under envC with no title. -/
def sessC : ChatSession := mkNewSession envC none

/-- Store holding exactly the session sessC, which is current. -/
def stC : Store := (createNewSession envC none emptyStore).2

/-- C1: getCurrentSession never returns absent. When the current pointer
resolves to an existing session, that session is returned and the store is
unchanged; when the pointer is unset or dangling, exactly one fresh session
with an empty message list is created, inserted at the front of the listing,
the pointer is repointed to it and it is returned, so getCurrentSessionId
afterward yields the new id; in particular a store with zero sessions gains
exactly one session. -/
theorem getCurrentSession_totality (env : Env) (st : Store) :
    (∀ sess, lookupCurrent st = some sess → getCurrentSession env st = (sess, st)) ∧
    (lookupCurrent st = none →
      (getCurrentSession env st).1.messages = [] ∧
      (getCurrentSession env st).2.sessions
        = (getCurrentSession env st).1 :: st.sessions ∧
      getCurrentSessionId (getCurrentSession env st).2
        = some (getCurrentSession env st).1.id) ∧
    (st.sessions = [] →
      (getCurrentSession env st).2.sessions.length = st.sessions.length + 1) := by
  refine ⟨fun sess h => getCurrentSession_resolved env st sess h, ?_, ?_⟩
  · intro h
    unfold getCurrentSession
    rw [h]
    simp [createNewSession, mkNewSession, getCurrentSessionId]
  · intro hempty
    have hnone : lookupCurrent st = none := by
      unfold lookupCurrent getSession
      cases st.currentSessionId with
      | none => rfl
      | some cid => simp [hempty]
    unfold getCurrentSession
    rw [hnone]
    simp [createNewSession]

/-- Witness for C1: the resolving branch on the one-session store stC and the
creating branch on the empty store. -/
theorem getCurrentSession_totality_witness :
    getCurrentSession envC stC = (sessC, stC) ∧
    (getCurrentSession envC emptyStore).1.messages = [] ∧
    (getCurrentSession envC emptyStore).2.sessions
      = (getCurrentSession envC emptyStore).1 :: emptyStore.sessions ∧
    (getCurrentSession envC emptyStore).2.sessions.length
      = emptyStore.sessions.length + 1 :=
  ⟨(getCurrentSession_totality envC stC).1 sessC rfl,
   ((getCurrentSession_totality envC emptyStore).2.1 rfl).1,
   ((getCurrentSession_totality envC emptyStore).2.1 rfl).2.1,
   (getCurrentSession_totality envC emptyStore).2.2 rfl⟩

/-- Store whose current pointer dangles: it names an id absent from the
listing. -/
def stDang : Store := { sessions := [sessC], currentSessionId := some "gone" }

/-- C10: needsTitleGeneration and getConversationHistory resolve the current
session through getCurrentSession, so on a store whose pointer is unset or
dangling they create a brand-new empty session, persist it at the front of
the listing and repoint the pointer; only when the pointer already resolves
do they leave the persisted store unchanged. -/
theorem resolvingReads_frame (env : Env) (st : Store) (limit : Nat) :
    (needsTitleGeneration env st).2 = (getCurrentSession env st).2 ∧
    (getConversationHistory env limit st).2 = (getCurrentSession env st).2 ∧
    (lookupCurrent st = none →
      (getCurrentSession env st).1.messages = [] ∧
      (getCurrentSession env st).2.sessions
        = (getCurrentSession env st).1 :: st.sessions ∧
      (getCurrentSession env st).2.currentSessionId
        = some (getCurrentSession env st).1.id) ∧
    ((lookupCurrent st).isSome = true →
      (needsTitleGeneration env st).2 = st ∧
      (getConversationHistory env limit st).2 = st) := by
  refine ⟨rfl, rfl, ?_, ?_⟩
  · intro h
    unfold getCurrentSession
    rw [h]
    simp [createNewSession, mkNewSession]
  · intro h
    have := getCurrentSession_of_isSome env st h
    exact ⟨this, this⟩

/-- Witness for C10: the creating branch on a dangling pointer and the
frame-preserving branch on a resolving store. -/
theorem resolvingReads_frame_witness :
    (getCurrentSession envC stDang).2.sessions
      = (getCurrentSession envC stDang).1 :: stDang.sessions ∧
    (needsTitleGeneration envC stC).2 = stC ∧
    (getConversationHistory envC 10 stC).2 = stC :=
  ⟨((resolvingReads_frame envC stDang 10).2.2.1 rfl).2.1,
   ((resolvingReads_frame envC stC 10).2.2.2 rfl).1,
   ((resolvingReads_frame envC stC 10).2.2.2 rfl).2⟩

/-- Session named A used in the switching scenario. -/
def sessA : ChatSession :=
  { id := "A", title := "first", messages := [], createdAt := 0, updatedAt := 0 }

/-- Session named B used in the switching scenario. -/
def sessB : ChatSession :=
  { id := "B", title := "second", messages := [], createdAt := 1, updatedAt := 1 }

/-- Store with sessions A and B where A is current. -/
def stAB : Store := { sessions := [sessA, sessB], currentSessionId := some "A" }

/-- C6: switchToSession returns true and repoints the current pointer exactly
when a session with the id exists; otherwise it returns false and leaves the
whole store untouched. -/
theorem switchToSession_spec (st : Store) (sid : String) :
    (switchToSession sid st).1 = (getSession st sid).isSome ∧
    ((getSession st sid).isSome = true →
      (switchToSession sid st).2
        = { sessions := st.sessions, currentSessionId := some sid }) ∧
    ((getSession st sid).isSome = false → switchToSession sid st = (false, st)) := by
  cases h : getSession st sid with
  | some sess => simp [switchToSession, h, setCurrentSessionId]
  | none => simp [switchToSession, h]

/-- Witness for C6: switching from A to the existing B succeeds and repoints;
switching to a nonexistent id fails and changes nothing. -/
theorem switchToSession_spec_witness :
    (switchToSession "B" stAB).2
      = { sessions := stAB.sessions, currentSessionId := some "B" } ∧
    switchToSession "nonexistent" stAB = (false, stAB) :=
  ⟨(switchToSession_spec stAB "B").2.1 rfl,
   (switchToSession_spec stAB "nonexistent").2.2 rfl⟩

/-- Environment used for the session created after deleting the current one. -/
def envC2 : Env := { envC with now := 6 }

/-- C5: deleteSession removes the session with the given id from the listing;
when the deleted session was current, a fresh session is created, put at the
front and made current (and the pointer resolves to it, so exactly one
session is current afterward); when it was not current, the pointer is
unchanged. The freshness hypothesis says the newly generated id differs from
the deleted one, which holds for the timestamped random ids the code
generates. -/
theorem deleteSession_spec (env : Env) (st : Store) (sid : String)
    (hfresh : ¬ sessionIdOf env = sid) :
    (∀ s, s ∈ (deleteSession env sid st).sessions → ¬ s.id = sid) ∧
    (st.currentSessionId = some sid →
      (deleteSession env sid st).sessions
        = mkNewSession env none :: st.sessions.filter (fun s => !(s.id == sid)) ∧
      (deleteSession env sid st).currentSessionId
        = some (mkNewSession env none).id ∧
      (mkNewSession env none).messages = [] ∧
      getSession (deleteSession env sid st) (mkNewSession env none).id
        = some (mkNewSession env none)) ∧
    (¬ st.currentSessionId = some sid →
      (deleteSession env sid st).currentSessionId = st.currentSessionId ∧
      (deleteSession env sid st).sessions
        = st.sessions.filter (fun s => !(s.id == sid))) := by
  by_cases hcur : st.currentSessionId = some sid
  · have hbool : (st.currentSessionId == some sid) = true := by simp [hcur]
    have hdel : deleteSession env sid st
        = { sessions := mkNewSession env none
              :: st.sessions.filter (fun s => !(s.id == sid))
            currentSessionId := some (mkNewSession env none).id } := by
      unfold deleteSession
      rw [hbool]
      simp [createNewSession]
    refine ⟨?_, fun _ => ⟨by rw [hdel], by rw [hdel], rfl, ?_⟩, fun hc => absurd hcur hc⟩
    · intro s hs
      rw [hdel] at hs
      rcases List.mem_cons.mp hs with hh | ht
      · rw [hh]
        exact hfresh
      · have := (List.mem_filter.mp ht).2
        simp at this
        exact this
    · rw [hdel]
      unfold getSession
      rw [List.find?_cons_of_pos]
      simp
  · have hbool : (st.currentSessionId == some sid) = false := by simp [hcur]
    have hdel : deleteSession env sid st
        = { sessions := st.sessions.filter (fun s => !(s.id == sid))
            currentSessionId := st.currentSessionId } := by
      unfold deleteSession
      rw [hbool]
      simp
    refine ⟨?_, fun hc => absurd hc hcur, fun _ => ⟨by rw [hdel], by rw [hdel]⟩⟩
    intro s hs
    rw [hdel] at hs
    have := (List.mem_filter.mp hs).2
    simp at this
    exact this

/-- Witness for C5: deleting the current session of stC creates and repoints
to a fresh session; deleting the non-current B from stAB leaves the pointer
on A. -/
theorem deleteSession_spec_witness :
    (deleteSession envC2 (sessionIdOf envC) stC).currentSessionId
      = some (mkNewSession envC2 none).id ∧
    (deleteSession envC "B" stAB).currentSessionId = stAB.currentSessionId :=
  ⟨((deleteSession_spec envC2 stC (sessionIdOf envC) (by decide)).2.1 rfl).2.1,
   ((deleteSession_spec envC stAB "B" (by decide)).2.2 (by decide)).1⟩

/-- Raw persisted read of ChatStorageService.getSessions: the CHAT_SESSIONS
key may be absent (none); otherwise its string value goes through JSON.parse
and the date-revival mapping, both inside try/catch. That parse step, which
throws on malformed JSON or on any value not shaped like a session array, is
abstracted as a function returning none exactly when it would throw; the
catch branch returns the empty listing. -/
def getSessionsFromStorage (parse : String → Option (List ChatSession))
    (raw : Option String) : List ChatSession :=
  match raw with
  | none => []
  | some s =>
    match parse s with
    | some sessions => sessions
    | none => []

/-- C7: getSessions fails closed. An absent persisted representation yields
the empty listing, and a corrupt or unparseable one also yields the empty
listing; the embedding is a total function, so no parse failure propagates
as an exception to the caller. -/
theorem getSessions_fails_closed (parse : String → Option (List ChatSession)) :
    getSessionsFromStorage parse none = [] ∧
    (∀ s, parse s = none → getSessionsFromStorage parse (some s) = []) := by
  refine ⟨rfl, fun s h => ?_⟩
  show (match parse s with
        | some sessions => sessions
        | none => []) = []
  rw [h]

/-- Witness for C7: a parser that rejects its input, applied to a concrete
corrupt string. -/
theorem getSessions_fails_closed_witness :
    getSessionsFromStorage (fun _ => none) (some "corrupt json") = [] :=
  (getSessions_fails_closed (fun _ => none)).2 "corrupt json" rfl

theorem updateSessionTitle_current (env : Env) (t : String) (st : Store)
    (sess : ChatSession) (h : lookupCurrent st = some sess) :
    lookupCurrent (updateSessionTitle env sess.id t st)
      = some { sess with title := t, updatedAt := env.now } ∧
    (updateSessionTitle env sess.id t st).currentSessionId
      = st.currentSessionId := by
  obtain ⟨hptr, hne, hfind⟩ := lookupCurrent_some st sess h
  have hbody : updateSessionTitle env sess.id t st
      = { sessions := updateFirst sess.id
            (fun s => { s with title := t, updatedAt := env.now }) st.sessions
          currentSessionId := st.currentSessionId } := by
    unfold updateSessionTitle
    simp [hfind]
  refine ⟨?_, by rw [hbody]⟩
  rw [hbody]
  simp only [lookupCurrent, hptr]
  rw [if_neg hne]
  show (updateFirst sess.id (fun s => { s with title := t, updatedAt := env.now })
      st.sessions).find? (fun s => s.id == sess.id) = _
  rw [findUpdateFirst sess.id sess.id
        (fun s => { s with title := t, updatedAt := env.now }) (fun s => rfl)
        st.sessions,
      hfind]
  simp

/-- C4 as amended: needsTitleGeneration is true iff the current session has
at least one message and its title matches the literal pattern of the check —
it starts with the five characters Chat-space or equals New Chat — and after
updateSessionTitle sets the current session title to t, the result is that
same pattern test applied to t. The test is purely on the title text, so an
explicit rename to another Chat-prefixed string keeps it true; it is false
after a rename exactly when the new title fails the pattern, and only until
a later rename back to a matching title. -/
theorem needsTitleGeneration_pattern (env env2 : Env) (st : Store)
    (sess : ChatSession) (t : String) (h : lookupCurrent st = some sess) :
    (needsTitleGeneration env st).1
      = (decide (0 < sess.messages.length)
          && (jsStartsWith sess.title "Chat " || sess.title == "New Chat")) ∧
    (needsTitleGeneration env2 (updateSessionTitle env sess.id t st)).1
      = (decide (0 < sess.messages.length)
          && (jsStartsWith t "Chat " || t == "New Chat")) := by
  constructor
  · unfold needsTitleGeneration
    rw [getCurrentSession_resolved env st sess h]
  · have h2 := updateSessionTitle_current env t st sess h
    unfold needsTitleGeneration
    rw [getCurrentSession_resolved env2 _ _ h2.1]

/-- Witness for C4: on the fresh one-session store the title is the
date-stamped default and there are no messages; after renaming to a
non-matching title the test applies the pattern to the new title. -/
theorem needsTitleGeneration_pattern_witness :
    (needsTitleGeneration envC stC).1
      = (decide (0 < sessC.messages.length)
          && (jsStartsWith sessC.title "Chat " || sessC.title == "New Chat")) ∧
    (needsTitleGeneration envC2 (updateSessionTitle envC sessC.id "My trip" stC)).1
      = (decide (0 < sessC.messages.length)
          && (jsStartsWith "My trip" "Chat " || "My trip" == "New Chat")) :=
  ⟨(needsTitleGeneration_pattern envC envC2 stC sessC "My trip" rfl).1,
   (needsTitleGeneration_pattern envC envC2 stC sessC "My trip" rfl).2⟩

/-- Store where the current session has one message and was then explicitly
renamed to another Chat-prefixed title. -/
def stRenamed : Store :=
  updateSessionTitle envC (sessionIdOf envC) "Chat favourite things"
    (addMessage envC
      { content := "hi", role := "user", requestId := none, mode := some "chat" } stC).2

/-- Counterexample to C4 as stated: the current session of stRenamed was
explicitly renamed to Chat favourite things, a string that is neither the
date-stamped auto-generated default of any call involved nor the generic
New Chat label, and it has one message; the claim says needsTitleGeneration
must now be permanently false, yet it returns true, because the code only
tests the Chat-space title prefix. -/
theorem needsTitleGeneration_rename_cex :
    (needsTitleGeneration envC stRenamed).1 = true ∧
    ¬ ("Chat favourite things" = defaultTitle envC) ∧
    ¬ ("Chat favourite things" = defaultTitle envC2) ∧
    ¬ ("Chat favourite things" = "New Chat") ∧
    (lookupCurrent stRenamed).map (fun s => s.title)
      = some "Chat favourite things" ∧
    (lookupCurrent stRenamed).map (fun s => s.messages.length) = some 1 := by
  refine ⟨rfl, by decide, by decide, by decide, rfl, rfl⟩

/-- Sequential application of addMessage for a list of calls, each call with
its own environment (clock value and random id suffix). -/
def addAll : List (Env × MsgPartial) → Store → Store
  | [], st => st
  | c :: rest, st => addAll rest (addMessage c.1 c.2 st).2

theorem lookupCurrent_createNewSession (env : Env) (title : Option String)
    (st : Store) :
    lookupCurrent (createNewSession env title st).2 = some (mkNewSession env title) := by
  have hne : ¬ (mkNewSession env title).id = "" := sessionIdOf_ne_empty env
  show (if (mkNewSession env title).id = "" then none
        else getSession
          { sessions := mkNewSession env title :: st.sessions
            currentSessionId := some (mkNewSession env title).id }
          (mkNewSession env title).id) = some (mkNewSession env title)
  rw [if_neg hne]
  unfold getSession
  rw [List.find?_cons_of_pos]
  simp

theorem addAll_current (calls : List (Env × MsgPartial)) (st : Store)
    (sess : ChatSession) (h : lookupCurrent st = some sess) :
    ∃ u, lookupCurrent (addAll calls st)
        = some { id := sess.id, title := sess.title
                 messages := sess.messages ++ calls.map (fun c => mkMessage c.1 c.2)
                 createdAt := sess.createdAt, updatedAt := u } := by
  induction calls generalizing st sess with
  | nil =>
    refine ⟨sess.updatedAt, ?_⟩
    simpa using h
  | cons c rest ih =>
    have h1 := (addMessage_resolved c.1 c.2 st sess h).2.2.2
    obtain ⟨u, hu⟩ := ih (addMessage c.1 c.2 st).2 _ h1
    refine ⟨u, ?_⟩
    show lookupCurrent (addAll rest (addMessage c.1 c.2 st).2) = _
    rw [hu]
    simp [appendMessageTo]

/-- C2 as amended: starting from a freshly created session, a sequence of
addMessage calls appends its messages in call order, and for every limit of
at least 1 getConversationHistory returns exactly the last min(limit, k) of
them (k the number of calls), each reduced to role and content, without
changing the store. The TypeScript limit parameter defaults to 10, an
instance of this statement. The restriction to positive limits is forced by
the slice(-0) behaviour exhibited in the counterexample. -/
theorem conversationHistory_lastN (env0 envH : Env) (st0 : Store)
    (calls : List (Env × MsgPartial)) (limit : Nat) (hN : 1 ≤ limit) :
    (getConversationHistory envH limit
        (addAll calls (createNewSession env0 none st0).2)).1
      = (calls.map (fun c =>
            ({ role := c.2.role, content := c.2.content } : HistEntry))).drop
          (calls.length - limit) ∧
    (getConversationHistory envH limit
        (addAll calls (createNewSession env0 none st0).2)).1.length
      = min limit calls.length ∧
    (getConversationHistory envH limit
        (addAll calls (createNewSession env0 none st0).2)).2
      = addAll calls (createNewSession env0 none st0).2 := by
  have h0 := lookupCurrent_createNewSession env0 none st0
  obtain ⟨u, hu⟩ := addAll_current calls _ _ h0
  have hmsgs : (mkNewSession env0 none).messages = [] := rfl
  rw [hmsgs] at hu
  simp only [List.nil_append] at hu
  have hres := getCurrentSession_resolved envH _ _ hu
  have hfirst : (getConversationHistory envH limit
      (addAll calls (createNewSession env0 none st0).2)).1
      = (calls.map (fun c =>
            ({ role := c.2.role, content := c.2.content } : HistEntry))).drop
          (calls.length - limit) := by
    unfold getConversationHistory
    rw [hres]
    simp only
    unfold sliceLast
    rw [if_neg (by omega : ¬ limit = 0)]
    simp only [List.length_map]
    rw [List.map_drop]
    congr 1
    rw [List.map_map]
    rfl
  refine ⟨hfirst, ?_, ?_⟩
  · rw [hfirst]
    simp only [List.length_drop, List.length_map]
    omega
  · unfold getConversationHistory
    rw [hres]

/-- Three sample addMessage calls. -/
def callsW : List (Env × MsgPartial) :=
  [(envC, { content := "one", role := "user", requestId := none, mode := none }),
   (envC2, { content := "two", role := "assistant", requestId := none, mode := none }),
   ({ envC with now := 7 }, { content := "three", role := "user", requestId := none, mode := none })]

/-- Witness for C2: three appended messages, limit 2, yields the last two in
order. -/
theorem conversationHistory_lastN_witness :
    (getConversationHistory envC2 2
        (addAll callsW (createNewSession envC none emptyStore).2)).1
      = (callsW.map (fun c =>
            ({ role := c.2.role, content := c.2.content } : HistEntry))).drop
          (callsW.length - 2) ∧
    (getConversationHistory envC2 2
        (addAll callsW (createNewSession envC none emptyStore).2)).1.length
      = min 2 callsW.length :=
  ⟨(conversationHistory_lastN envC envC2 emptyStore callsW 2 (by decide)).1,
   (conversationHistory_lastN envC envC2 emptyStore callsW 2 (by decide)).2.1⟩

/-- Store with one freshly created session holding exactly one user message. -/
def stOne : Store :=
  (addMessage envC2
    { content := "hi", role := "user", requestId := none, mode := none }
    (createNewSession envC none emptyStore).2).2

/-- Counterexample to C2 as stated at limit 0: the claim predicts the last
min(0, 1) = 0 messages, the empty sequence, but slice(-0) is slice(0) and the
code returns all messages of the session. -/
theorem conversationHistory_limit_zero_cex :
    (getConversationHistory envC 0 stOne).1
      = [{ role := "user", content := "hi" }] ∧
    ¬ ((getConversationHistory envC 0 stOne).1.length = min 0 1) := by
  constructor
  · rfl
  · decide

/-- Backend reply shape (interface ChatResponse of the api service): reply
text plus optional used tools and an optional generated session title. -/
structure ChatResponse where
  reply : String
  used_tools : Option (List String)
  session_title : Option String
  deriving DecidableEq, Repr

/-- Outbound request body posted to the chat send endpoint by
apiService.sendMessage (interface ChatMessage of the api service). -/
structure ChatRequestBody where
  message : String
  mode : String
  conversation_history : List HistEntry
  request_id : String
  generate_title : Bool
  deriving DecidableEq, Repr

/-- generateRequestId of the api service: req_ + Date.now() + _ + random
base-36 suffix. -/
def generateRequestId (env : Env) : String :=
  "req_" ++ toString env.now ++ "_" ++ env.reqRand

/-- apiService.sendMessage up to the network call: generate a request id,
read the last 10 messages of conversation history from the store, and
assemble the posted body. The store is returned because reading the history
resolves the current session and may persist one. -/
def sendMessageBody (env : Env) (message mode : String) (generateTitle : Bool)
    (st : Store) : ChatRequestBody × Store :=
  let requestId := generateRequestId env
  let hist := getConversationHistory env 10 st
  ({ message := message, mode := mode, conversation_history := hist.1
     request_id := requestId, generate_title := generateTitle }, hist.2)

/-- In-memory transcript entry of the UI (ChatMessageModel of the
ChatMessage component). -/
structure ChatMessageModel where
  id : String
  role : String
  content : String
  timestamp : Nat
  mode : String
  deriving DecidableEq, Repr

/-- Character-level trim of both ends, used to embed JavaScript
String.prototype.trim. -/
def trimChars (cs : List Char) : List Char :=
  ((cs.dropWhile Char.isWhitespace).reverse.dropWhile Char.isWhitespace).reverse

/-- Embedding of JavaScript String.prototype.trim. -/
def jsTrim (s : String) : String := ⟨trimChars s.data⟩

/-- The fixed apology string of the synthetic assistant error message in
handleSend. -/
def apologyText : String :=
  "Sorry, I encountered an error. Please check if the backend is running."

/-- The partial message stored for the user turn in handleSend; the mode is
the nominal user-selected mode. -/
def userPartialOf (text mode : String) : MsgPartial :=
  { content := text, role := "user", requestId := none, mode := some mode }

/-- The reply text displayed and stored: response.reply with the empty
string (falsy) replaced by the fallback label. -/
def assistantContentOf (resp : ChatResponse) : String :=
  if resp.reply = "" then "No response received" else resp.reply

/-- The partial message stored for the assistant turn in handleSend; the
mode is the nominal user-selected mode. -/
def assistantPartialOf (resp : ChatResponse) (mode : String) : MsgPartial :=
  { content := assistantContentOf resp, role := "assistant", requestId := none
    mode := some mode }

/-- The effective mode sent over the network: the expressive toggle remaps
chat, every other nominal mode is sent unchanged. -/
def effectiveModeOf (mode : String) (expressive : Bool) : String :=
  if mode == "chat" && expressive then "expressive" else mode

/-- The generated-title application step at the end of the success branch of
handleSend: a truthy (non-empty) session_title in the response is written,
via updateSessionTitle, onto the session that is current at response time
(resolved with getCurrentSession, which may itself mutate the store); a
missing or empty title leaves the store as is. -/
def titleStep (env : Env) (title : Option String) (st : Store) : Store :=
  match title with
  | some t =>
    if t = "" then st
    else updateSessionTitle env (getCurrentSession env st).1.id t
      (getCurrentSession env st).2
  | none => st

/-- handleSend of the ChatInterface component, acting on a given store and
transcript: guard on empty trimmed input; store the user message under the
nominal mode and append it to the transcript; compute needsTitleGeneration;
remap the mode through the expressive toggle; build the outbound body
(apiService.sendMessage); then branch on the network outcome, passed in as
an Except value since the request is awaited: on success store the assistant
reply under the nominal mode, apply a non-empty generated session title to
the session current at response time, and append the reply to the
transcript; on failure (request throw or non-success response) append the
synthetic apology assistant message with mode error to the transcript only.
The result is the posted body (none when the guard fired), the persisted
store, and the transcript. -/
def handleSend (env : Env) (mode : String) (expressive : Bool) (input : String)
    (outcome : Except Unit ChatResponse) (st : Store)
    (ui : List ChatMessageModel) :
    Option ChatRequestBody × Store × List ChatMessageModel :=
  if jsTrim input = "" then (none, st, ui)
  else
    let text := jsTrim input
    let userMessage : ChatMessageModel :=
      { id := toString env.now, role := "user", content := text
        timestamp := env.now, mode := mode }
    let add1 := addMessage env (userPartialOf text mode) st
    let ui1 := ui ++ [userMessage]
    let gen := needsTitleGeneration env add1.2
    let sent := sendMessageBody env text (effectiveModeOf mode expressive) gen.1 gen.2
    match outcome with
    | Except.ok resp =>
      let botMessage : ChatMessageModel :=
        { id := toString (env.now + 1), role := "assistant"
          content := assistantContentOf resp, timestamp := env.now, mode := mode }
      let add2 := addMessage env (assistantPartialOf resp mode) sent.2
      let afterTitle := titleStep env resp.session_title add2.2
      (some sent.1, afterTitle, ui1 ++ [botMessage])
    | Except.error _ =>
      let errorMessage : ChatMessageModel :=
        { id := toString (env.now + 1), role := "assistant"
          content := apologyText, timestamp := env.now, mode := "error" }
      (some sent.1, sent.2, ui1 ++ [errorMessage])

/-- C8: the outbound body assembled by sendMessage is exactly the message,
the mode it was called with, the conversationHistory(10) of the store, the
request id req_ + current time + _ + random base-36 suffix, and the
generate_title flag it was called with; and through handleSend that flag is
exactly the value of needsTitleGeneration at send time (right after the user
message is stored), the history being read from that same store state. -/
theorem sendMessage_body_spec (env : Env) (message mode : String)
    (generateTitle : Bool) (st : Store) :
    (sendMessageBody env message mode generateTitle st).1
      = { message := message, mode := mode
          conversation_history := (getConversationHistory env 10 st).1
          request_id := "req_" ++ toString env.now ++ "_" ++ env.reqRand
          generate_title := generateTitle } ∧
    (∀ input expressive outcome ui, ¬ jsTrim input = "" →
      (handleSend env mode expressive input outcome st ui).1
        = some (sendMessageBody env (jsTrim input)
            (effectiveModeOf mode expressive)
            (needsTitleGeneration env
              (addMessage env (userPartialOf (jsTrim input) mode) st).2).1
            (needsTitleGeneration env
              (addMessage env (userPartialOf (jsTrim input) mode) st).2).2).1) := by
  refine ⟨rfl, fun input expressive outcome ui h => ?_⟩
  unfold handleSend
  rw [if_neg h]
  cases outcome <;> rfl

/-- Witness for C8 on the one-session store with a concrete message. -/
theorem sendMessage_body_spec_witness :
    (sendMessageBody envC "hello" "rag" false stC).1
      = { message := "hello", mode := "rag"
          conversation_history := (getConversationHistory envC 10 stC).1
          request_id := "req_" ++ toString envC.now ++ "_" ++ envC.reqRand
          generate_title := false } ∧
    (handleSend envC "rag" false "hello" (Except.error ()) stC []).1
      = some (sendMessageBody envC (jsTrim "hello") (effectiveModeOf "rag" false)
          (needsTitleGeneration envC
            (addMessage envC (userPartialOf (jsTrim "hello") "rag") stC).2).1
          (needsTitleGeneration envC
            (addMessage envC (userPartialOf (jsTrim "hello") "rag") stC).2).2).1 :=
  ⟨(sendMessage_body_spec envC "hello" "rag" false stC).1,
   (sendMessage_body_spec envC "hello" "rag" false stC).2 "hello" false
     (Except.error ()) [] (by decide)⟩

theorem handleSend_error_eq (env : Env) (mode : String) (expressive : Bool)
    (input : String) (e : Unit) (st : Store) (ui : List ChatMessageModel)
    (htext : ¬ jsTrim input = "") :
    handleSend env mode expressive input (Except.error e) st ui
      = (some (sendMessageBody env (jsTrim input) (effectiveModeOf mode expressive)
            (needsTitleGeneration env
              (addMessage env (userPartialOf (jsTrim input) mode) st).2).1
            (needsTitleGeneration env
              (addMessage env (userPartialOf (jsTrim input) mode) st).2).2).1,
         (sendMessageBody env (jsTrim input) (effectiveModeOf mode expressive)
            (needsTitleGeneration env
              (addMessage env (userPartialOf (jsTrim input) mode) st).2).1
            (needsTitleGeneration env
              (addMessage env (userPartialOf (jsTrim input) mode) st).2).2).2,
         (ui ++ [{ id := toString env.now, role := "user", content := jsTrim input
                   timestamp := env.now, mode := mode }])
           ++ [{ id := toString (env.now + 1), role := "assistant"
                 content := apologyText, timestamp := env.now, mode := "error" }]) := by
  unfold handleSend
  rw [if_neg htext]

theorem sendMessageBody_frame (env : Env) (message mode : String)
    (generateTitle : Bool) (st : Store)
    (h : (lookupCurrent st).isSome = true) :
    (sendMessageBody env message mode generateTitle st).2 = st :=
  getCurrentSession_of_isSome env st h

theorem needsTitleGeneration_frame (env : Env) (st : Store)
    (h : (lookupCurrent st).isSome = true) :
    (needsTitleGeneration env st).2 = st :=
  getCurrentSession_of_isSome env st h

/-- C3 as amended: when the outbound request fails, the synthetic assistant
message with the fixed apology string and mode error is appended to the
in-memory transcript only; the persisted session store stays exactly as it
was right after the user message was stored — the apology is not persisted
through the store append path — and no retry happens: the flow posts exactly
one request body. -/
theorem failedSend_transcript_only (env : Env) (mode : String)
    (expressive : Bool) (input : String) (e : Unit) (st : Store)
    (ui : List ChatMessageModel) (htext : ¬ jsTrim input = "") :
    (handleSend env mode expressive input (Except.error e) st ui).2.1
      = (addMessage env (userPartialOf (jsTrim input) mode) st).2 ∧
    (handleSend env mode expressive input (Except.error e) st ui).2.2
      = ui ++ [{ id := toString env.now, role := "user", content := jsTrim input
                 timestamp := env.now, mode := mode },
               { id := toString (env.now + 1), role := "assistant"
                 content := apologyText, timestamp := env.now, mode := "error" }] ∧
    (handleSend env mode expressive input (Except.error e) st ui).1
      = some (sendMessageBody env (jsTrim input) (effectiveModeOf mode expressive)
          (needsTitleGeneration env
            (addMessage env (userPartialOf (jsTrim input) mode) st).2).1
          (needsTitleGeneration env
            (addMessage env (userPartialOf (jsTrim input) mode) st).2).2).1 := by
  have hsome := lookupCurrent_addMessage_isSome env (userPartialOf (jsTrim input) mode) st
  have e1 : (needsTitleGeneration env
      (addMessage env (userPartialOf (jsTrim input) mode) st).2).2
      = (addMessage env (userPartialOf (jsTrim input) mode) st).2 :=
    needsTitleGeneration_frame env _ hsome
  rw [handleSend_error_eq env mode expressive input e st ui htext]
  refine ⟨?_, ?_, rfl⟩
  · show (sendMessageBody env (jsTrim input) (effectiveModeOf mode expressive)
        (needsTitleGeneration env
          (addMessage env (userPartialOf (jsTrim input) mode) st).2).1
        (needsTitleGeneration env
          (addMessage env (userPartialOf (jsTrim input) mode) st).2).2).2 = _
    rw [e1]
    exact sendMessageBody_frame env _ _ _ _ hsome
  · simp

/-- Witness for C3 as amended, on the one-session store with input hi. -/
theorem failedSend_transcript_only_witness :
    (handleSend envC "chat" false "hi" (Except.error ()) stC []).2.1
      = (addMessage envC (userPartialOf (jsTrim "hi") "chat") stC).2 :=
  (failedSend_transcript_only envC "chat" false "hi" () stC [] (by decide)).1

/-- Counterexample to C3 as stated: after a failed send from the one-session
store, the transcript gains the apology assistant message with mode error,
but no message of any persisted session carries the apology content — the
synthetic message was not appended through the store append path. -/
theorem failedSend_not_persisted_cex :
    ((handleSend envC "chat" false "hi" (Except.error ()) stC []).2.1.sessions.all
        (fun s => s.messages.all (fun m => !(m.content == apologyText)))) = true ∧
    ((handleSend envC "chat" false "hi" (Except.error ()) stC []).2.2.any
        (fun m => m.content == apologyText && m.mode == "error")) = true := by
  constructor
  · rfl
  · rfl

theorem titleStep_none (env : Env) (st : Store) : titleStep env none st = st := rfl

theorem titleStep_some (env : Env) (t : String) (st : Store) (ht : ¬ t = "") :
    titleStep env (some t) st
      = updateSessionTitle env (getCurrentSession env st).1.id t
          (getCurrentSession env st).2 := by
  show (if t = "" then st
        else updateSessionTitle env (getCurrentSession env st).1.id t
          (getCurrentSession env st).2) = _
  rw [if_neg ht]

theorem handleSend_ok_eq (env : Env) (mode : String) (expressive : Bool)
    (input : String) (resp : ChatResponse) (st : Store)
    (ui : List ChatMessageModel) (htext : ¬ jsTrim input = "") :
    handleSend env mode expressive input (Except.ok resp) st ui
      = (some (sendMessageBody env (jsTrim input) (effectiveModeOf mode expressive)
            (needsTitleGeneration env
              (addMessage env (userPartialOf (jsTrim input) mode) st).2).1
            (needsTitleGeneration env
              (addMessage env (userPartialOf (jsTrim input) mode) st).2).2).1,
         titleStep env resp.session_title
           (addMessage env (assistantPartialOf resp mode)
             (sendMessageBody env (jsTrim input) (effectiveModeOf mode expressive)
               (needsTitleGeneration env
                 (addMessage env (userPartialOf (jsTrim input) mode) st).2).1
               (needsTitleGeneration env
                 (addMessage env (userPartialOf (jsTrim input) mode) st).2).2).2).2,
         (ui ++ [{ id := toString env.now, role := "user", content := jsTrim input
                   timestamp := env.now, mode := mode }])
           ++ [{ id := toString (env.now + 1), role := "assistant"
                 content := assistantContentOf resp, timestamp := env.now
                 mode := mode }]) := by
  unfold handleSend
  rw [if_neg htext]

/-- C9: mode resolution. The body posted by handleSend carries the effective
mode — expressive when the nominal mode is chat and the expressive toggle is
active, the nominal mode otherwise — in both the success and the failure
outcome; while the messages persisted to the session store carry the nominal
user-facing mode: the current session ends with the stored user message
(and, on success, the stored assistant reply) whose mode field is the
nominal mode. -/
theorem mode_resolution_spec (env : Env) (st : Store)
    (ui : List ChatMessageModel) (input mode : String) (expressive : Bool)
    (resp : ChatResponse) (e : Unit) (sess : ChatSession)
    (h : lookupCurrent st = some sess) (htext : ¬ jsTrim input = "") :
    (∀ body, (handleSend env mode expressive input (Except.ok resp) st ui).1
        = some body →
      body.mode = (if mode == "chat" && expressive then "expressive" else mode)) ∧
    (∀ body, (handleSend env mode expressive input (Except.error e) st ui).1
        = some body →
      body.mode = (if mode == "chat" && expressive then "expressive" else mode)) ∧
    (mkMessage env (userPartialOf (jsTrim input) mode)).mode = some mode ∧
    (mkMessage env (assistantPartialOf resp mode)).mode = some mode ∧
    (∃ s2, lookupCurrent
        (handleSend env mode expressive input (Except.ok resp) st ui).2.1
        = some s2 ∧
      s2.messages = sess.messages
        ++ [mkMessage env (userPartialOf (jsTrim input) mode),
            mkMessage env (assistantPartialOf resp mode)]) ∧
    (∃ s1, lookupCurrent
        (handleSend env mode expressive input (Except.error e) st ui).2.1
        = some s1 ∧
      s1.messages = sess.messages
        ++ [mkMessage env (userPartialOf (jsTrim input) mode)]) := by
  have r1 := addMessage_resolved env (userPartialOf (jsTrim input) mode) st sess h
  have h1 := r1.2.2.2
  have hsome1 : (lookupCurrent
      (addMessage env (userPartialOf (jsTrim input) mode) st).2).isSome = true := by
    rw [h1]; rfl
  have e1 : (needsTitleGeneration env
      (addMessage env (userPartialOf (jsTrim input) mode) st).2).2
      = (addMessage env (userPartialOf (jsTrim input) mode) st).2 :=
    needsTitleGeneration_frame env _ hsome1
  have e2 : (sendMessageBody env (jsTrim input) (effectiveModeOf mode expressive)
      (needsTitleGeneration env
        (addMessage env (userPartialOf (jsTrim input) mode) st).2).1
      (needsTitleGeneration env
        (addMessage env (userPartialOf (jsTrim input) mode) st).2).2).2
      = (addMessage env (userPartialOf (jsTrim input) mode) st).2 := by
    rw [e1]
    exact sendMessageBody_frame env _ _ _ _ hsome1
  have hlsent : lookupCurrent (sendMessageBody env (jsTrim input)
      (effectiveModeOf mode expressive)
      (needsTitleGeneration env
        (addMessage env (userPartialOf (jsTrim input) mode) st).2).1
      (needsTitleGeneration env
        (addMessage env (userPartialOf (jsTrim input) mode) st).2).2).2
      = some (appendMessageTo
          (mkMessage env (userPartialOf (jsTrim input) mode)) env.now sess) := by
    rw [e2]
    exact h1
  have r2 := addMessage_resolved env (assistantPartialOf resp mode) _ _ hlsent
  have h2 := r2.2.2.2
  refine ⟨?_, ?_, rfl, rfl, ?_, ?_⟩
  · intro body hb
    rw [handleSend_ok_eq env mode expressive input resp st ui htext] at hb
    have hb2 : some (sendMessageBody env (jsTrim input)
        (effectiveModeOf mode expressive)
        (needsTitleGeneration env
          (addMessage env (userPartialOf (jsTrim input) mode) st).2).1
        (needsTitleGeneration env
          (addMessage env (userPartialOf (jsTrim input) mode) st).2).2).1
        = some body := hb
    rw [← Option.some.inj hb2]
    rfl
  · intro body hb
    rw [handleSend_error_eq env mode expressive input e st ui htext] at hb
    have hb2 : some (sendMessageBody env (jsTrim input)
        (effectiveModeOf mode expressive)
        (needsTitleGeneration env
          (addMessage env (userPartialOf (jsTrim input) mode) st).2).1
        (needsTitleGeneration env
          (addMessage env (userPartialOf (jsTrim input) mode) st).2).2).1
        = some body := hb
    rw [← Option.some.inj hb2]
    rfl
  · rw [handleSend_ok_eq env mode expressive input resp st ui htext]
    cases hts : resp.session_title with
    | none =>
      rw [titleStep_none]
      refine ⟨_, h2, ?_⟩
      simp [appendMessageTo]
    | some t =>
      by_cases ht : t = ""
      · subst ht
        refine ⟨_, h2, ?_⟩
        simp [appendMessageTo]
      · rw [titleStep_some env t _ ht]
        rw [getCurrentSession_resolved env _ _ h2]
        have h3 := updateSessionTitle_current env t _ _ h2
        refine ⟨_, h3.1, ?_⟩
        simp [appendMessageTo]
  · rw [handleSend_error_eq env mode expressive input e st ui htext]
    exact ⟨_, hlsent, by simp [appendMessageTo]⟩

/-- Sample backend reply used in witnesses. -/
def respW : ChatResponse :=
  { reply := "hello there", used_tools := none, session_title := none }

/-- Witness for C9: with nominal mode chat and the expressive toggle on, the
stored messages carry mode chat while the posted body (exhibited through the
theorem) carries expressive. -/
theorem mode_resolution_spec_witness :
    (mkMessage envC (userPartialOf (jsTrim "hi") "chat")).mode = some "chat" ∧
    (∃ s2, lookupCurrent
        (handleSend envC "chat" true "hi" (Except.ok respW) stC []).2.1
        = some s2 ∧
      s2.messages = sessC.messages
        ++ [mkMessage envC (userPartialOf (jsTrim "hi") "chat"),
            mkMessage envC (assistantPartialOf respW "chat")]) ∧
    (∀ body, (handleSend envC "chat" true "hi" (Except.ok respW) stC []).1
        = some body →
      body.mode = (if "chat" == "chat" && true then "expressive" else "chat")) :=
  ⟨(mode_resolution_spec envC stC [] "hi" "chat" true respW () sessC rfl
      (by decide)).2.2.1,
   (mode_resolution_spec envC stC [] "hi" "chat" true respW () sessC rfl
      (by decide)).2.2.2.2.1,
   (mode_resolution_spec envC stC [] "hi" "chat" true respW () sessC rfl
      (by decide)).1⟩
